import Mathlib

/-!
Verification of the credential-lifecycle manager (src/src/managers/user.ts)
of the moncomptepro repository, as a shallow embedding in Lean 4.

Each manager operation is translated into a pure Lean function over an
explicit store state, parameterised by an environment record that stands for
the external collaborators (clock, token generators, password hashing,
breach corpus, deliverability service) and the configuration constants.
Calls to the credential store and the notification sink are turned into an
explicit write log and mail log, so framing properties can be stated.
-/

namespace MonComptePro

/-- The user record (spec section 3; the shape read and written by
src/src/managers/user.ts). Timestamps are minutes as naturals. -/
structure User where
  id : Nat
  email : String
  encrypted_password : Option String
  email_verified : Bool
  email_verified_at : Option Nat
  verify_email_token : Option String
  verify_email_sent_at : Option Nat
  magic_link_token : Option String
  magic_link_sent_at : Option Nat
  reset_password_token : Option String
  reset_password_sent_at : Option Nat
  sign_in_count : Nat
  last_sign_in_at : Option Nat
  given_name : Option String
  family_name : Option String
  phone_number : Option String
  job : Option String
deriving Repr, DecidableEq

/-- A store update payload: exactly the fields supplied to `update`.
`none` in the outer option means the field is not supplied and is left
unchanged by the store's merge (spec section 6: `update` performs a merge of
only the supplied fields). The inner option is the column's nullability. -/
structure UserPatch where
  encrypted_password : Option (Option String) := none
  email_verified : Option Bool := none
  email_verified_at : Option (Option Nat) := none
  verify_email_token : Option (Option String) := none
  verify_email_sent_at : Option (Option Nat) := none
  magic_link_token : Option (Option String) := none
  magic_link_sent_at : Option (Option Nat) := none
  reset_password_token : Option (Option String) := none
  reset_password_sent_at : Option (Option Nat) := none
  sign_in_count : Option Nat := none
  last_sign_in_at : Option (Option Nat) := none
  given_name : Option (Option String) := none
  family_name : Option (Option String) := none
  phone_number : Option (Option String) := none
  job : Option (Option String) := none
deriving Repr, DecidableEq

/-- Modelled from the spec: the Credential Store's `update` merge of the
supplied fields into an existing row (spec section 6). -/
def applyPatch (u : User) (p : UserPatch) : User :=
  { u with
    encrypted_password := p.encrypted_password.getD u.encrypted_password
    email_verified := p.email_verified.getD u.email_verified
    email_verified_at := p.email_verified_at.getD u.email_verified_at
    verify_email_token := p.verify_email_token.getD u.verify_email_token
    verify_email_sent_at := p.verify_email_sent_at.getD u.verify_email_sent_at
    magic_link_token := p.magic_link_token.getD u.magic_link_token
    magic_link_sent_at := p.magic_link_sent_at.getD u.magic_link_sent_at
    reset_password_token := p.reset_password_token.getD u.reset_password_token
    reset_password_sent_at := p.reset_password_sent_at.getD u.reset_password_sent_at
    sign_in_count := p.sign_in_count.getD u.sign_in_count
    last_sign_in_at := p.last_sign_in_at.getD u.last_sign_in_at
    given_name := p.given_name.getD u.given_name
    family_name := p.family_name.getD u.family_name
    phone_number := p.phone_number.getD u.phone_number
    job := p.job.getD u.job }

/-- The durable state of the Credential Store: the list of user rows. -/
abbrev Store := List User

/-- Modelled from the spec: Credential Store `findByEmail` (spec section 6:
lookups return an absent result, never throw, when no row matches). -/
def findByEmail (s : Store) (email : String) : Option User :=
  List.find? (fun u => u.email == email) s

/-- Modelled from the spec: Credential Store `findByMagicLinkToken`.
Per the code comment at src/src/managers/user.ts line 251 ("check that token
as not the default empty value as it will match all users"), a row whose
stored token is null behaves at the datastore layer as the empty default
value, so an empty presented token would match it; the model reproduces this
hazard so the manager's explicit empty-token guard is meaningful. -/
def findByMagicLinkToken (s : Store) (token : String) : Option User :=
  List.find? (fun u => u.magic_link_token.getD "" == token) s

/-- Modelled from the spec: Credential Store `findByResetPasswordToken`,
with the same empty-default hazard as `findByMagicLinkToken` (code comment
at src/src/managers/user.ts line 314). -/
def findByResetPasswordToken (s : Store) (token : String) : Option User :=
  List.find? (fun u => u.reset_password_token.getD "" == token) s

/-- Modelled from the spec: the Credential Store's `update` applied to the
whole store: the row with the given id is replaced by its merge with the
patch. -/
def storeUpdate (s : Store) (i : Nat) (p : UserPatch) : Store :=
  List.map (fun u => if u.id = i then applyPatch u p else u) s

/-- Modelled from the spec: the Credential Store's `create` (spec sections 3
and 6): a fresh row with the supplied fields; token pairs are null, the
email is unverified, and `sign_in_count` starts at zero. -/
def createUser (nextId : Nat) (email : String) (pw : Option String)
    (lastSignInAt : Option Nat) : User :=
  { id := nextId
    email := email
    encrypted_password := pw
    email_verified := false
    email_verified_at := none
    verify_email_token := none
    verify_email_sent_at := none
    magic_link_token := none
    magic_link_sent_at := none
    reset_password_token := none
    reset_password_sent_at := none
    sign_in_count := 0
    last_sign_in_at := lastSignInAt
    given_name := none
    family_name := none
    phone_number := none
    job := none }

/-- The closed error variants of src/src/errors (spec section 7). -/
inductive Err where
  | InvalidCredentialsError
  | EmailUnavailableError
  | WeakPasswordError
  | LeakedPasswordError
  | InvalidEmailError (didYouMean : Option String)
  | UserNotFoundError
  | InvalidTokenError
  | InvalidMagicLinkError
  | EmailVerifiedAlreadyError
deriving Repr, DecidableEq

/-- One notification handed to the Notification Sink (`sendMail`); the
source field `to` is a reserved word in Lean and is rendered `toAddr`. -/
structure Mail where
  toAddr : List String
  subject : String
  template : String
  params : List (String × String)
deriving Repr, DecidableEq

/-- One write against the Credential Store. -/
inductive WriteEvent where
  | create (u : User)
  | update (i : Nat) (p : UserPatch)
deriving Repr, DecidableEq

/-- The observable outcome of one manager operation: its returned value or
thrown error, the resulting store, the store writes performed, and the
notifications emitted. -/
structure OpResult (α : Type) where
  result : Except Err α
  store : Store
  writes : List WriteEvent
  mails : List Mail
deriving Repr

/-- The external collaborators and configuration of the Lifecycle Manager:
the clock, the tokens the generators would produce on this call, the
Password Policy, the breach corpus, the Deliverability Guard, the id the
store would assign on `create`, and the expiration durations (in minutes)
from the configuration. -/
structure Env where
  now : Nat
  nextId : Nat
  generateToken : String
  generatePinToken : String
  hashPassword : String → String
  validatePassword : String → Option String → Bool
  isPasswordSecure : String → String → Bool
  hasPasswordBeenPwned : String → Bool
  isEmailSafeToSend : String → Bool × Option String
  getDidYouMeanSuggestion : String → Option String
  verifyEmailTokenMinutes : Nat
  magicLinkTokenMinutes : Nat
  resetPasswordTokenMinutes : Nat
  maxDurationBetweenVerificationsMinutes : Nat

/-- Modelled from the spec: `isExpired(sentAt, durationMinutes)` of
src/services/is-expired (not under src/): expiration is
`now - sentAt > durationMinutes`, the exact boundary is not yet expired
(spec section 4.3); a null `sentAt` means no pending operation, so it is
reported expired and issue paths proceed. -/
def isExpired (now : Nat) (sentAt : Option Nat) (durationMinutes : Nat) : Bool :=
  match sentAt with
  | none => true
  | some t => now - t > durationMinutes

/-- The JS display formatting of the PIN token:
`token.replace(/(.{3})/g, '$1 ')` — a space is appended after every complete
group of three characters (src/src/managers/user.ts lines 139-142). -/
def readableChunks : List Char → List Char
  | a :: b :: c :: rest => a :: b :: c :: ' ' :: readableChunks rest
  | rest => rest

/-- String form of `readableChunks`. -/
def readableToken (s : String) : String :=
  String.mk (readableChunks s.data)

/-- `startLogin` (src/src/managers/user.ts lines 40-62). -/
def startLogin (env : Env) (s : Store) (email : String) :
    OpResult (String × Bool) :=
  if (findByEmail s email).isSome then
    { result := Except.ok (email, true), store := s, writes := [], mails := [] }
  else
    let guard := env.isEmailSafeToSend email
    if guard.1 then
      { result := Except.ok (email, false), store := s, writes := [], mails := [] }
    else
      let didYouMean :=
        match guard.2 with
        | some d => if d = "" then env.getDidYouMeanSuggestion email else some d
        | none => env.getDidYouMeanSuggestion email
      { result := Except.error (Err.InvalidEmailError didYouMean), store := s,
        writes := [], mails := [] }

/-- The update payload of a successful password login
(src/src/managers/user.ts lines 78-81). -/
def loginPatch (now : Nat) (previousCount : Nat) : UserPatch :=
  { sign_in_count := some (previousCount + 1)
    last_sign_in_at := some (some now) }

/-- `login` (src/src/managers/user.ts lines 64-82). -/
def login (env : Env) (s : Store) (email password : String) : OpResult User :=
  match findByEmail s email with
  | none =>
    { result := Except.error Err.InvalidCredentialsError, store := s,
      writes := [], mails := [] }
  | some user =>
    if env.validatePassword password user.encrypted_password then
      let p := loginPatch env.now user.sign_in_count
      { result := Except.ok (applyPatch user p)
        store := storeUpdate s user.id p
        writes := [WriteEvent.update user.id p]
        mails := [] }
    else
      { result := Except.error Err.InvalidCredentialsError, store := s,
        writes := [], mails := [] }

/-- `signup` (src/src/managers/user.ts lines 84-109). -/
def signup (env : Env) (s : Store) (email password : String) : OpResult User :=
  if (findByEmail s email).isSome then
    { result := Except.error Err.EmailUnavailableError, store := s,
      writes := [], mails := [] }
  else if !env.isPasswordSecure password email then
    { result := Except.error Err.WeakPasswordError, store := s,
      writes := [], mails := [] }
  else if env.hasPasswordBeenPwned password then
    { result := Except.error Err.LeakedPasswordError, store := s,
      writes := [], mails := [] }
  else
    let hashedPassword := env.hashPassword password
    let u := createUser env.nextId email (some hashedPassword) (some env.now)
    { result := Except.ok u, store := s ++ [u],
      writes := [WriteEvent.create u], mails := [] }

/-- The update payload issuing a verify-email token
(src/src/managers/user.ts lines 144-147). -/
def verifyEmailIssuePatch (now : Nat) (token : String) : UserPatch :=
  { verify_email_token := some (some token)
    verify_email_sent_at := some (some now) }

/-- `sendEmailAddressVerificationEmail`
(src/src/managers/user.ts lines 111-159). -/
def sendEmailAddressVerificationEmail (env : Env) (s : Store) (email : String)
    (checkBeforeSend : Bool) : OpResult Bool :=
  match findByEmail s email with
  | none =>
    { result := Except.error Err.UserNotFoundError, store := s,
      writes := [], mails := [] }
  | some user =>
    if user.email_verified then
      { result := Except.error Err.EmailVerifiedAlreadyError, store := s,
        writes := [], mails := [] }
    else if checkBeforeSend &&
        !isExpired env.now user.verify_email_sent_at env.verifyEmailTokenMinutes then
      { result := Except.ok false, store := s, writes := [], mails := [] }
    else
      let verify_email_token := env.generatePinToken
      let p := verifyEmailIssuePatch env.now verify_email_token
      { result := Except.ok true
        store := storeUpdate s user.id p
        writes := [WriteEvent.update user.id p]
        mails := [{ toAddr := [user.email]
                    subject := "Vérification de votre adresse email"
                    template := "verify-email"
                    params := [("verify_email_token",
                                readableToken verify_email_token)] }] }

/-- The update payload consuming a verify-email token
(src/src/managers/user.ts lines 184-189). -/
def verifyEmailConsumePatch (now : Nat) : UserPatch :=
  { email_verified := some true
    email_verified_at := some (some now)
    verify_email_token := some none
    verify_email_sent_at := some none }

/-- `verifyEmail` (src/src/managers/user.ts lines 161-190). -/
def verifyEmail (env : Env) (s : Store) (email token : String) : OpResult User :=
  match findByEmail s email with
  | none =>
    { result := Except.error Err.UserNotFoundError, store := s,
      writes := [], mails := [] }
  | some user =>
    if user.verify_email_token ≠ some token then
      { result := Except.error Err.InvalidTokenError, store := s,
        writes := [], mails := [] }
    else if isExpired env.now user.verify_email_sent_at env.verifyEmailTokenMinutes then
      { result := Except.error Err.InvalidTokenError, store := s,
        writes := [], mails := [] }
    else
      let p := verifyEmailConsumePatch env.now
      { result := Except.ok (applyPatch user p)
        store := storeUpdate s user.id p
        writes := [WriteEvent.update user.id p]
        mails := [] }

/-- `updateEmailAddressVerificationStatus`
(src/src/managers/user.ts lines 192-216). -/
def updateEmailAddressVerificationStatus (env : Env) (s : Store)
    (email : String) : OpResult (User × Bool) :=
  match findByEmail s email with
  | none =>
    { result := Except.error Err.UserNotFoundError, store := s,
      writes := [], mails := [] }
  | some user =>
    if user.email_verified &&
        isExpired env.now user.email_verified_at
          env.maxDurationBetweenVerificationsMinutes then
      let p : UserPatch := { email_verified := some false }
      { result := Except.ok (applyPatch user p, true)
        store := storeUpdate s user.id p
        writes := [WriteEvent.update user.id p]
        mails := [] }
    else
      { result := Except.ok (user, false), store := s, writes := [], mails := [] }

/-- The update payload issuing a magic-link token
(src/src/managers/user.ts lines 233-236). -/
def magicLinkIssuePatch (now : Nat) (token : String) : UserPatch :=
  { magic_link_token := some (some token)
    magic_link_sent_at := some (some now) }

/-- `sendSendMagicLinkEmail` (src/src/managers/user.ts lines 218-248):
creates the user on first use, then unconditionally overwrites the
magic-link token pair and sends the link. -/
def sendSendMagicLinkEmail (env : Env) (s : Store) (email host : String) :
    OpResult Bool :=
  let found :=
    match findByEmail s email with
    | some u => (u, s, ([] : List WriteEvent))
    | none =>
      let u := createUser env.nextId email none (some env.now)
      (u, s ++ [u], [WriteEvent.create u])
  let user := found.1
  let magicLinkToken := env.generateToken
  let p := magicLinkIssuePatch env.now magicLinkToken
  { result := Except.ok true
    store := storeUpdate found.2.1 user.id p
    writes := found.2.2 ++ [WriteEvent.update user.id p]
    mails := [{ toAddr := [user.email]
                subject := "Lien de connexion à MonComptePro"
                template := "magic-link"
                params := [("magic_link",
                  host ++ "/users/sign-in-with-magic-link?magic_link_token="
                    ++ magicLinkToken)] }] }

/-- The update payload consuming a magic-link token
(src/src/managers/user.ts lines 271-277). -/
def magicLinkConsumePatch (now : Nat) : UserPatch :=
  { email_verified := some true
    email_verified_at := some (some now)
    magic_link_token := some none
    magic_link_sent_at := some none
    last_sign_in_at := some (some now) }

/-- `loginWithMagicLink` (src/src/managers/user.ts lines 250-278). -/
def loginWithMagicLink (env : Env) (s : Store) (token : String) : OpResult User :=
  if token = "" then
    { result := Except.error Err.InvalidMagicLinkError, store := s,
      writes := [], mails := [] }
  else
    match findByMagicLinkToken s token with
    | none =>
      { result := Except.error Err.InvalidMagicLinkError, store := s,
        writes := [], mails := [] }
    | some user =>
      if isExpired env.now user.magic_link_sent_at env.magicLinkTokenMinutes then
        { result := Except.error Err.InvalidMagicLinkError, store := s,
          writes := [], mails := [] }
      else
        let p := magicLinkConsumePatch env.now
        { result := Except.ok (applyPatch user p)
          store := storeUpdate s user.id p
          writes := [WriteEvent.update user.id p]
          mails := [] }

/-- The update payload issuing a reset-password token
(src/src/managers/user.ts lines 293-296). -/
def resetPasswordIssuePatch (now : Nat) (token : String) : UserPatch :=
  { reset_password_token := some (some token)
    reset_password_sent_at := some (some now) }

/-- `sendResetPasswordEmail` (src/src/managers/user.ts lines 280-308):
fails silently when the user does not exist (non-enumeration). -/
def sendResetPasswordEmail (env : Env) (s : Store) (email host : String) :
    OpResult Bool :=
  match findByEmail s email with
  | none =>
    { result := Except.ok true, store := s, writes := [], mails := [] }
  | some user =>
    let resetPasswordToken := env.generateToken
    let p := resetPasswordIssuePatch env.now resetPasswordToken
    { result := Except.ok true
      store := storeUpdate s user.id p
      writes := [WriteEvent.update user.id p]
      mails := [{ toAddr := [user.email]
                  subject := "Instructions pour la réinitialisation du mot de passe"
                  template := "reset-password"
                  params := [("reset_password_link",
                    host ++ "/users/change-password?reset_password_token="
                      ++ resetPasswordToken)] }] }

/-- The update payload consuming a reset-password token
(src/src/managers/user.ts lines 344-350). -/
def changePasswordPatch (now : Nat) (hashedPassword : String) : UserPatch :=
  { encrypted_password := some (some hashedPassword)
    email_verified := some true
    email_verified_at := some (some now)
    reset_password_token := some none
    reset_password_sent_at := some none }

/-- `changePassword` (src/src/managers/user.ts lines 310-351). -/
def changePassword (env : Env) (s : Store) (token password : String) :
    OpResult User :=
  if token = "" then
    { result := Except.error Err.InvalidTokenError, store := s,
      writes := [], mails := [] }
  else
    match findByResetPasswordToken s token with
    | none =>
      { result := Except.error Err.InvalidTokenError, store := s,
        writes := [], mails := [] }
    | some user =>
      if isExpired env.now user.reset_password_sent_at
          env.resetPasswordTokenMinutes then
        { result := Except.error Err.InvalidTokenError, store := s,
          writes := [], mails := [] }
      else if !env.isPasswordSecure password user.email then
        { result := Except.error Err.WeakPasswordError, store := s,
          writes := [], mails := [] }
      else if env.hasPasswordBeenPwned password then
        { result := Except.error Err.LeakedPasswordError, store := s,
          writes := [], mails := [] }
      else
        let hashedPassword := env.hashPassword password
        let p := changePasswordPatch env.now hashedPassword
        { result := Except.ok (applyPatch user p)
          store := storeUpdate s user.id p
          writes := [WriteEvent.update user.id p]
          mails := [] }

/-- Modelled from the spec: Credential Store lookup by id, used to report
the row `update` returns. -/
def findById (s : Store) (i : Nat) : Option User :=
  List.find? (fun u => u.id == i) s

/-- `updatePersonalInformations` (src/src/managers/user.ts lines 353-368):
an unconditional profile-field merge by user id. -/
def updatePersonalInformations (env : Env) (s : Store) (userId : Nat)
    (given_name family_name phone_number job : Option String) :
    OpResult (Option User) :=
  let _ := env
  let p : UserPatch :=
    { given_name := some given_name
      family_name := some family_name
      phone_number := some phone_number
      job := some job }
  { result := Except.ok (findById (storeUpdate s userId p) userId)
    store := storeUpdate s userId p
    writes := [WriteEvent.update userId p]
    mails := [] }

/-! ### Test fixtures for witnesses -/

/-- A concrete environment used to instantiate the theorems below. -/
def testEnv : Env :=
  { now := 100
    nextId := 1
    generateToken := "freshtoken"
    generatePinToken := "123456"
    hashPassword := fun pw => String.append "hashed:" pw
    validatePassword := fun pw h => h == some (String.append "hashed:" pw)
    isPasswordSecure := fun pw _ => decide (10 ≤ pw.length)
    hasPasswordBeenPwned := fun pw => pw == "Password123!"
    isEmailSafeToSend := fun _ => (true, none)
    getDidYouMeanSuggestion := fun _ => none
    verifyEmailTokenMinutes := 60
    magicLinkTokenMinutes := 10
    resetPasswordTokenMinutes := 60
    maxDurationBetweenVerificationsMinutes := 10080 }

/-- A concrete user row with all three token pairs pending, issued at
minute 95 (unexpired at `testEnv.now = 100`). -/
def testUser : User :=
  { id := 7
    email := "jean@exemple.fr"
    encrypted_password := some "hashed:OldPassword!"
    email_verified := false
    email_verified_at := none
    verify_email_token := some "111222"
    verify_email_sent_at := some 95
    magic_link_token := some "magic-abc"
    magic_link_sent_at := some 95
    reset_password_token := some "reset-abc"
    reset_password_sent_at := some 95
    sign_in_count := 3
    last_sign_in_at := some 90
    given_name := none
    family_name := none
    phone_number := none
    job := none }

/-- A concrete user row with no pending token. -/
def testUserClean : User :=
  { id := 8
    email := "anne@exemple.fr"
    encrypted_password := some "hashed:AnnePassword!"
    email_verified := true
    email_verified_at := some 50
    verify_email_token := none
    verify_email_sent_at := none
    magic_link_token := none
    magic_link_sent_at := none
    reset_password_token := none
    reset_password_sent_at := none
    sign_in_count := 12
    last_sign_in_at := some 50
    given_name := none
    family_name := none
    phone_number := none
    job := none }

/-! ### Helper lemmas -/

/-- The store merge never changes a row's email. -/
theorem applyPatch_email (u : User) (p : UserPatch) :
    (applyPatch u p).email = u.email := rfl

/-- The store merge never changes a row's id. -/
theorem applyPatch_id (u : User) (p : UserPatch) :
    (applyPatch u p).id = u.id := rfl

/-- Updating the row found by email leaves it the first match for that
email, now merged with the patch. -/
theorem findByEmail_storeUpdate (s : Store) (email : String) (u : User)
    (p : UserPatch) (h : findByEmail s email = some u) :
    findByEmail (storeUpdate s u.id p) email = some (applyPatch u p) := by
  induction s with
  | nil => simp [findByEmail] at h
  | cons v t ih =>
    rw [findByEmail, List.find?] at h
    have hw : (if v.id = u.id then applyPatch v p else v).email = v.email := by
      by_cases hid : v.id = u.id <;> simp [hid, applyPatch_email]
    cases hbe : (v.email == email) with
    | true =>
      simp only [hbe, Option.some.injEq] at h
      subst h
      simp [storeUpdate, findByEmail, List.find?, hw, applyPatch_email, hbe]
    | false =>
      simp only [hbe] at h
      simp only [storeUpdate, findByEmail, List.map, List.find?, hw, hbe]
      exact ih h

/-! ### The token/timestamp pairing invariant (spec section 3) -/

/-- A row satisfies the pairing invariant: each token field and its
`*_sent_at` timestamp are both null or both set. -/
def tokenPairsOk (u : User) : Bool :=
  (u.verify_email_token.isNone == u.verify_email_sent_at.isNone) &&
  (u.magic_link_token.isNone == u.magic_link_sent_at.isNone) &&
  (u.reset_password_token.isNone == u.reset_password_sent_at.isNone)

/-- Every row of the store satisfies the pairing invariant. -/
def storeOk (s : Store) : Bool :=
  List.all s tokenPairsOk

/-- A supplied token/timestamp field pair of an update payload keeps the
pairing invariant: both unsupplied, or both supplied with the same
nullness. -/
def pairFieldOk : Option (Option String) → Option (Option Nat) → Bool
  | none, none => true
  | some t, some ts => t.isNone == ts.isNone
  | _, _ => false

/-- An update payload that touches each token pair consistently. -/
def patchPairsOk (p : UserPatch) : Bool :=
  pairFieldOk p.verify_email_token p.verify_email_sent_at &&
  pairFieldOk p.magic_link_token p.magic_link_sent_at &&
  pairFieldOk p.reset_password_token p.reset_password_sent_at

/-- Merging one consistent field pair keeps the invariant on that pair. -/
theorem pair_preserved (a : Option String) (b : Option Nat)
    (pa : Option (Option String)) (pb : Option (Option Nat))
    (h : (a.isNone == b.isNone) = true) (hp : pairFieldOk pa pb = true) :
    ((pa.getD a).isNone == (pb.getD b).isNone) = true := by
  cases pa <;> cases pb <;> simp_all [pairFieldOk]

/-- Merging a consistent payload into an invariant row keeps the
invariant. -/
theorem tokenPairsOk_applyPatch (u : User) (p : UserPatch)
    (hu : tokenPairsOk u = true) (hp : patchPairsOk p = true) :
    tokenPairsOk (applyPatch u p) = true := by
  simp only [tokenPairsOk, applyPatch, Bool.and_eq_true] at hu ⊢
  simp only [patchPairsOk, Bool.and_eq_true] at hp
  exact ⟨⟨pair_preserved _ _ _ _ hu.1.1 hp.1.1,
          pair_preserved _ _ _ _ hu.1.2 hp.1.2⟩,
         pair_preserved _ _ _ _ hu.2 hp.2⟩

/-- A store update with a consistent payload keeps the invariant on the
whole store. -/
theorem storeOk_storeUpdate (s : Store) (i : Nat) (p : UserPatch)
    (hs : storeOk s = true) (hp : patchPairsOk p = true) :
    storeOk (storeUpdate s i p) = true := by
  simp only [storeOk, storeUpdate, List.all_eq_true] at hs ⊢
  intro x hx
  rcases List.mem_map.mp hx with ⟨u, hu, rfl⟩
  by_cases hid : u.id = i
  · rw [if_pos hid]
    exact tokenPairsOk_applyPatch u p (hs u hu) hp
  · rw [if_neg hid]
    exact hs u hu

/-- Appending an invariant row keeps the invariant on the whole store. -/
theorem storeOk_append (s : Store) (u : User) (hs : storeOk s = true)
    (hu : tokenPairsOk u = true) : storeOk (s ++ [u]) = true := by
  simp only [storeOk, List.all_append, List.all_cons, List.all_nil,
    Bool.and_eq_true] at hs ⊢
  exact ⟨hs, hu, trivial⟩

/-- A freshly created row satisfies the invariant: its token pairs are
null. -/
theorem tokenPairsOk_createUser (nextId : Nat) (email : String)
    (pw : Option String) (lastSignInAt : Option Nat) :
    tokenPairsOk (createUser nextId email pw lastSignInAt) = true := rfl

/-- `startLogin` never writes, so it keeps the invariant. -/
theorem startLogin_storeOk (env : Env) (s : Store) (email : String)
    (hs : storeOk s = true) :
    storeOk (startLogin env s email).store = true := by
  unfold startLogin
  by_cases h1 : (findByEmail s email).isSome
  · simp only [h1, if_true]
    exact hs
  · simp only [h1, if_false]
    by_cases h2 : (env.isEmailSafeToSend email).1 <;> simp only [h2, if_true, if_false] <;> exact hs

/-- `login` touches no token pair, so it keeps the invariant. -/
theorem login_storeOk (env : Env) (s : Store) (email password : String)
    (hs : storeOk s = true) :
    storeOk (login env s email password).store = true := by
  unfold login
  cases hfind : findByEmail s email with
  | none => exact hs
  | some u =>
    cases hv : env.validatePassword password u.encrypted_password with
    | true =>
      simp only [hv, if_true]
      exact storeOk_storeUpdate s u.id (loginPatch env.now u.sign_in_count) hs rfl
    | false =>
      simp only [hv, Bool.false_eq_true, if_false]
      exact hs

/-- `signup` creates a row with null token pairs, keeping the invariant. -/
theorem signup_storeOk (env : Env) (s : Store) (email password : String)
    (hs : storeOk s = true) :
    storeOk (signup env s email password).store = true := by
  unfold signup
  by_cases h1 : (findByEmail s email).isSome
  · simp only [h1, if_true]
    exact hs
  · simp only [h1, if_false]
    cases h2 : env.isPasswordSecure password email with
    | false => simp only [h2, Bool.not_false, if_true]; exact hs
    | true =>
      simp only [h2, Bool.not_true, Bool.false_eq_true, if_false]
      cases h3 : env.hasPasswordBeenPwned password with
      | true => simp only [h3, if_true]; exact hs
      | false =>
        simp only [h3, Bool.false_eq_true, if_false]
        exact storeOk_append s _ hs (tokenPairsOk_createUser _ _ _ _)

/-- `sendEmailAddressVerificationEmail` sets the verify-email pair together,
keeping the invariant. -/
theorem sendEmailAddressVerificationEmail_storeOk (env : Env) (s : Store)
    (email : String) (checkBeforeSend : Bool) (hs : storeOk s = true) :
    storeOk (sendEmailAddressVerificationEmail env s email checkBeforeSend).store = true := by
  unfold sendEmailAddressVerificationEmail
  cases hfind : findByEmail s email with
  | none => exact hs
  | some u =>
    cases h1 : u.email_verified with
    | true => simp only [h1, if_true]; exact hs
    | false =>
      simp only [h1, Bool.false_eq_true, if_false]
      by_cases h2 : (checkBeforeSend &&
          !isExpired env.now u.verify_email_sent_at env.verifyEmailTokenMinutes) = true
      · simp only [h2, if_true]
        exact hs
      · simp only [h2, if_false]
        exact storeOk_storeUpdate s u.id _ hs rfl

/-- `verifyEmail` clears the verify-email pair together, keeping the
invariant. -/
theorem verifyEmail_storeOk (env : Env) (s : Store) (email token : String)
    (hs : storeOk s = true) :
    storeOk (verifyEmail env s email token).store = true := by
  unfold verifyEmail
  cases hfind : findByEmail s email with
  | none => exact hs
  | some u =>
    dsimp only
    by_cases h1 : u.verify_email_token ≠ some token
    · rw [if_pos h1]
      exact hs
    · rw [if_neg h1]
      by_cases h2 : isExpired env.now u.verify_email_sent_at env.verifyEmailTokenMinutes = true
      · rw [if_pos h2]
        exact hs
      · rw [if_neg h2]
        exact storeOk_storeUpdate s u.id _ hs rfl

/-- `updateEmailAddressVerificationStatus` touches no token pair, keeping
the invariant. -/
theorem updateEmailAddressVerificationStatus_storeOk (env : Env) (s : Store)
    (email : String) (hs : storeOk s = true) :
    storeOk (updateEmailAddressVerificationStatus env s email).store = true := by
  unfold updateEmailAddressVerificationStatus
  cases hfind : findByEmail s email with
  | none => exact hs
  | some u =>
    by_cases h1 : (u.email_verified && isExpired env.now u.email_verified_at
        env.maxDurationBetweenVerificationsMinutes) = true
    · simp only [h1, if_true]
      exact storeOk_storeUpdate s u.id _ hs rfl
    · simp only [h1, if_false]
      exact hs

/-- `sendSendMagicLinkEmail` sets the magic-link pair together (after an
invariant-preserving create on first use), keeping the invariant. -/
theorem sendSendMagicLinkEmail_storeOk (env : Env) (s : Store)
    (email host : String) (hs : storeOk s = true) :
    storeOk (sendSendMagicLinkEmail env s email host).store = true := by
  unfold sendSendMagicLinkEmail
  cases hfind : findByEmail s email with
  | none =>
    exact storeOk_storeUpdate _ _ _
      (storeOk_append s _ hs (tokenPairsOk_createUser _ _ _ _)) rfl
  | some u =>
    exact storeOk_storeUpdate s u.id _ hs rfl

/-- `loginWithMagicLink` clears the magic-link pair together, keeping the
invariant. -/
theorem loginWithMagicLink_storeOk (env : Env) (s : Store) (token : String)
    (hs : storeOk s = true) :
    storeOk (loginWithMagicLink env s token).store = true := by
  unfold loginWithMagicLink
  by_cases h0 : token = ""
  · rw [if_pos h0]
    exact hs
  · rw [if_neg h0]
    cases hfind : findByMagicLinkToken s token with
    | none => exact hs
    | some u =>
      dsimp only
      by_cases h1 : isExpired env.now u.magic_link_sent_at env.magicLinkTokenMinutes = true
      · rw [if_pos h1]
        exact hs
      · rw [if_neg h1]
        exact storeOk_storeUpdate s u.id _ hs rfl

/-- `sendResetPasswordEmail` sets the reset-password pair together, keeping
the invariant. -/
theorem sendResetPasswordEmail_storeOk (env : Env) (s : Store)
    (email host : String) (hs : storeOk s = true) :
    storeOk (sendResetPasswordEmail env s email host).store = true := by
  unfold sendResetPasswordEmail
  cases hfind : findByEmail s email with
  | none => exact hs
  | some u => exact storeOk_storeUpdate s u.id _ hs rfl

/-- `changePassword` clears the reset-password pair together, keeping the
invariant. -/
theorem changePassword_storeOk (env : Env) (s : Store) (token password : String)
    (hs : storeOk s = true) :
    storeOk (changePassword env s token password).store = true := by
  unfold changePassword
  by_cases h0 : token = ""
  · rw [if_pos h0]
    exact hs
  · rw [if_neg h0]
    cases hfind : findByResetPasswordToken s token with
    | none => exact hs
    | some u =>
      dsimp only
      by_cases h1 : isExpired env.now u.reset_password_sent_at env.resetPasswordTokenMinutes = true
      · rw [if_pos h1]
        exact hs
      · rw [if_neg h1]
        cases h2 : env.isPasswordSecure password u.email with
        | false => simp only [h2, Bool.not_false, if_true]; exact hs
        | true =>
          simp only [h2, Bool.not_true, Bool.false_eq_true, if_false]
          cases h3 : env.hasPasswordBeenPwned password with
          | true => simp only [h3, if_true]; exact hs
          | false =>
            simp only [h3, Bool.false_eq_true, if_false]
            exact storeOk_storeUpdate s u.id _ hs rfl

/-- `updatePersonalInformations` touches no token pair, keeping the
invariant. -/
theorem updatePersonalInformations_storeOk (env : Env) (s : Store)
    (userId : Nat) (g f ph j : Option String) (hs : storeOk s = true) :
    storeOk (updatePersonalInformations env s userId g f ph j).store = true := by
  unfold updatePersonalInformations
  exact storeOk_storeUpdate s userId _ hs rfl

/-! ### Claims -/

/-- C1: every operation of the Lifecycle Manager keeps the pairing
invariant — each token field and its `*_sent_at` timestamp are both null or
both set — because each operation that writes a token field sets or clears
the token and its timestamp in the same single update. -/
theorem C1_token_pair_invariant (env : Env) (s : Store)
    (email token host password : String) (checkBeforeSend : Bool)
    (userId : Nat) (g f ph j : Option String)
    (hs : storeOk s = true) :
    storeOk (startLogin env s email).store = true ∧
    storeOk (login env s email password).store = true ∧
    storeOk (signup env s email password).store = true ∧
    storeOk (sendEmailAddressVerificationEmail env s email checkBeforeSend).store = true ∧
    storeOk (verifyEmail env s email token).store = true ∧
    storeOk (updateEmailAddressVerificationStatus env s email).store = true ∧
    storeOk (sendSendMagicLinkEmail env s email host).store = true ∧
    storeOk (loginWithMagicLink env s token).store = true ∧
    storeOk (sendResetPasswordEmail env s email host).store = true ∧
    storeOk (changePassword env s token password).store = true ∧
    storeOk (updatePersonalInformations env s userId g f ph j).store = true :=
  ⟨startLogin_storeOk env s email hs,
   login_storeOk env s email password hs,
   signup_storeOk env s email password hs,
   sendEmailAddressVerificationEmail_storeOk env s email checkBeforeSend hs,
   verifyEmail_storeOk env s email token hs,
   updateEmailAddressVerificationStatus_storeOk env s email hs,
   sendSendMagicLinkEmail_storeOk env s email host hs,
   loginWithMagicLink_storeOk env s token hs,
   sendResetPasswordEmail_storeOk env s email host hs,
   changePassword_storeOk env s token password hs,
   updatePersonalInformations_storeOk env s userId g f ph j hs⟩

/-- Witness for C1 at a concrete store with pending and clean rows. -/
theorem C1_token_pair_invariant_witness :
    storeOk [testUser, testUserClean] = true ∧
    storeOk (verifyEmail testEnv [testUser, testUserClean] "jean@exemple.fr"
      "111222").store = true :=
  ⟨by decide,
   (C1_token_pair_invariant testEnv [testUser, testUserClean] "jean@exemple.fr"
     "111222" "https://host" "GoodPassword42!" true 7 none none none none
     (by decide)).2.2.2.2.1⟩

/-- C7: `isExpired(sentAt, durationMinutes)` is true exactly when the
elapsed time strictly exceeds the duration: false at exactly the boundary,
true at any strictly later instant. -/
theorem C7_isExpired_boundary (t d : Nat) :
    (∀ now, isExpired now (some t) d = decide (now - t > d)) ∧
    isExpired (t + d) (some t) d = false ∧
    (∀ e, 0 < e → isExpired (t + d + e) (some t) d = true) := by
  refine ⟨fun now => rfl, ?_, fun e he => ?_⟩
  · simp only [isExpired, decide_eq_false_iff_not, gt_iff_lt, not_lt]
    omega
  · simp only [isExpired, decide_eq_true_eq, gt_iff_lt]
    omega

/-- Witness for C7 at `sentAt = 30`, duration 60: not expired at minute 90,
expired at minute 91. -/
theorem C7_isExpired_boundary_witness :
    isExpired 90 (some 30) 60 = false ∧ isExpired 91 (some 30) 60 = true :=
  ⟨(C7_isExpired_boundary 30 60).2.1,
   by have h := (C7_isExpired_boundary 30 60).2.2 1 (by decide); simpa using h⟩

/-- C2: non-enumeration — `login` fails with the same
`InvalidCredentialsError` when no user exists for the email and when the
password does not validate; `sendResetPasswordEmail` returns true for an
unknown email with no store write and no mail, the same observable result
as for an existing user. -/
theorem C2_non_enumeration (env : Env) (s : Store) (email password host : String) :
    (findByEmail s email = none →
      (login env s email password).result
        = Except.error Err.InvalidCredentialsError) ∧
    (∀ u, findByEmail s email = some u →
      env.validatePassword password u.encrypted_password = false →
      (login env s email password).result
        = Except.error Err.InvalidCredentialsError) ∧
    (findByEmail s email = none →
      (sendResetPasswordEmail env s email host).result = Except.ok true ∧
      (sendResetPasswordEmail env s email host).store = s ∧
      (sendResetPasswordEmail env s email host).writes = [] ∧
      (sendResetPasswordEmail env s email host).mails = []) := by
  refine ⟨fun h => ?_, fun u hu hv => ?_, fun h => ?_⟩
  · simp [login, h]
  · simp [login, hu, hv]
  · simp [sendResetPasswordEmail, h]

/-- Witness for C2: a missing account and a wrong password give the same
error, and a reset request for a missing account reports success. -/
theorem C2_non_enumeration_witness :
    (login testEnv [] "ghost@exemple.fr" "whatever").result
      = Except.error Err.InvalidCredentialsError ∧
    (login testEnv [testUser] "jean@exemple.fr" "WrongPassword").result
      = Except.error Err.InvalidCredentialsError ∧
    (sendResetPasswordEmail testEnv [] "ghost@exemple.fr" "https://host").result
      = Except.ok true :=
  ⟨(C2_non_enumeration testEnv [] "ghost@exemple.fr" "whatever" "https://host").1
     (by decide),
   (C2_non_enumeration testEnv [testUser] "jean@exemple.fr" "WrongPassword"
     "https://host").2.1 testUser (by decide) (by decide),
   ((C2_non_enumeration testEnv [] "ghost@exemple.fr" "whatever"
     "https://host").2.2 (by decide)).1⟩

/-- C3: `loginWithMagicLink` fails with `InvalidMagicLinkError` exactly when
the token is empty, no record matches, or the token is expired — in
particular the empty token always fails — and on success clears the
magic-link pair, marks the email verified with its timestamp, and updates
`last_sign_in_at`. -/
theorem C3_magic_link_login (env : Env) (s : Store) (token : String) :
    ((loginWithMagicLink env s token).result
        = Except.error Err.InvalidMagicLinkError ↔
      token = "" ∨ findByMagicLinkToken s token = none ∨
      ∃ u, findByMagicLinkToken s token = some u ∧
        isExpired env.now u.magic_link_sent_at env.magicLinkTokenMinutes = true) ∧
    (loginWithMagicLink env s "").result
      = Except.error Err.InvalidMagicLinkError ∧
    (∀ u, token ≠ "" → findByMagicLinkToken s token = some u →
      isExpired env.now u.magic_link_sent_at env.magicLinkTokenMinutes = false →
      ∃ u', (loginWithMagicLink env s token).result = Except.ok u' ∧
        u'.magic_link_token = none ∧ u'.magic_link_sent_at = none ∧
        u'.email_verified = true ∧ u'.email_verified_at = some env.now ∧
        u'.last_sign_in_at = some env.now ∧
        (loginWithMagicLink env s token).store
          = storeUpdate s u.id (magicLinkConsumePatch env.now)) := by
  refine ⟨⟨?_, ?_⟩, ?_, ?_⟩
  · by_cases h0 : token = ""
    · intro _; exact Or.inl h0
    · cases hfind : findByMagicLinkToken s token with
      | none => intro _; exact Or.inr (Or.inl rfl)
      | some u =>
        cases hexp : isExpired env.now u.magic_link_sent_at
            env.magicLinkTokenMinutes with
        | true => intro _; exact Or.inr (Or.inr ⟨u, rfl, hexp⟩)
        | false =>
          intro hres
          exfalso
          unfold loginWithMagicLink at hres
          rw [if_neg h0, hfind] at hres
          dsimp only at hres
          rw [hexp] at hres
          simp at hres
  · intro h
    rcases h with h0 | hfind | ⟨u, hfind, hexp⟩
    · unfold loginWithMagicLink; rw [if_pos h0]
    · by_cases h0 : token = ""
      · unfold loginWithMagicLink; rw [if_pos h0]
      · unfold loginWithMagicLink; rw [if_neg h0, hfind]
    · by_cases h0 : token = ""
      · unfold loginWithMagicLink; rw [if_pos h0]
      · unfold loginWithMagicLink
        rw [if_neg h0, hfind]
        dsimp only
        rw [if_pos hexp]
  · unfold loginWithMagicLink; rw [if_pos rfl]
  · intro u htok hfind hexp
    unfold loginWithMagicLink
    rw [if_neg htok, hfind]
    dsimp only
    rw [hexp, if_neg Bool.false_ne_true]
    exact ⟨applyPatch u (magicLinkConsumePatch env.now),
      rfl, rfl, rfl, rfl, rfl, rfl, rfl⟩

/-- Witness for C3: the empty token fails on a store holding a pending
magic-link row, and the pending token logs in and clears the pair. -/
theorem C3_magic_link_login_witness :
    (loginWithMagicLink testEnv [testUser] "").result
      = Except.error Err.InvalidMagicLinkError ∧
    (∃ u', (loginWithMagicLink testEnv [testUser] "magic-abc").result
      = Except.ok u' ∧ u'.magic_link_token = none ∧
      u'.magic_link_sent_at = none ∧ u'.email_verified = true) := by
  refine ⟨(C3_magic_link_login testEnv [testUser] "x").2.1, ?_⟩
  rcases (C3_magic_link_login testEnv [testUser] "magic-abc").2.2 testUser
    (by decide) (by decide) (by decide) with ⟨u', h1, h2, h3, h4, _⟩
  exact ⟨u', h1, h2, h3, h4⟩

/-- C4: with a valid, unexpired reset-password token, `changePassword`
rejects a weak password with `WeakPasswordError` and a breached one with
`LeakedPasswordError`, committing no state change: the store is untouched,
so `encrypted_password` is unchanged and the token pair is not consumed. -/
theorem C4_changePassword_atomic_failure (env : Env) (s : Store)
    (token password : String) (u : User)
    (htok : token ≠ "")
    (hfind : findByResetPasswordToken s token = some u)
    (hexp : isExpired env.now u.reset_password_sent_at
      env.resetPasswordTokenMinutes = false) :
    (env.isPasswordSecure password u.email = false →
      (changePassword env s token password).result
        = Except.error Err.WeakPasswordError ∧
      (changePassword env s token password).store = s ∧
      (changePassword env s token password).writes = [] ∧
      (changePassword env s token password).mails = []) ∧
    (env.isPasswordSecure password u.email = true →
      env.hasPasswordBeenPwned password = true →
      (changePassword env s token password).result
        = Except.error Err.LeakedPasswordError ∧
      (changePassword env s token password).store = s ∧
      (changePassword env s token password).writes = [] ∧
      (changePassword env s token password).mails = []) := by
  constructor
  · intro hsec
    unfold changePassword
    rw [if_neg htok, hfind]
    dsimp only
    rw [hexp, if_neg Bool.false_ne_true, hsec, Bool.not_false, if_pos rfl]
    exact ⟨rfl, rfl, rfl, rfl⟩
  · intro hsec hpwn
    unfold changePassword
    rw [if_neg htok, hfind]
    dsimp only
    rw [hexp, if_neg Bool.false_ne_true, hsec, Bool.not_true,
      if_neg Bool.false_ne_true, hpwn, if_pos rfl]
    exact ⟨rfl, rfl, rfl, rfl⟩

/-- Witness for C4: the pending reset token of `testUser` with a too-short
password fails weak and changes nothing; with a breached password it fails
leaked. -/
theorem C4_changePassword_atomic_failure_witness :
    (changePassword testEnv [testUser] "reset-abc" "short").result
      = Except.error Err.WeakPasswordError ∧
    (changePassword testEnv [testUser] "reset-abc" "short").store = [testUser] ∧
    (changePassword testEnv [testUser] "reset-abc" "Password123!").result
      = Except.error Err.LeakedPasswordError :=
  ⟨((C4_changePassword_atomic_failure testEnv [testUser] "reset-abc" "short"
      testUser (by decide) (by decide) (by decide)).1 (by decide)).1,
   ((C4_changePassword_atomic_failure testEnv [testUser] "reset-abc" "short"
      testUser (by decide) (by decide) (by decide)).1 (by decide)).2.1,
   ((C4_changePassword_atomic_failure testEnv [testUser] "reset-abc"
      "Password123!" testUser (by decide) (by decide) (by decide)).2
      (by decide) (by decide)).1⟩

/-- C5: re-issue policy for verify-email tokens — for an unverified user,
`checkBeforeSend = true` with an unexpired previous token returns false and
changes nothing; once expired, or with `checkBeforeSend = false`, both
fields are overwritten with the fresh token and the current time and the
call returns true. -/
theorem C5_verify_email_reissue (env : Env) (s : Store) (email : String)
    (u : User) (hfind : findByEmail s email = some u)
    (hunv : u.email_verified = false) :
    (isExpired env.now u.verify_email_sent_at env.verifyEmailTokenMinutes = false →
      (sendEmailAddressVerificationEmail env s email true).result = Except.ok false ∧
      (sendEmailAddressVerificationEmail env s email true).store = s ∧
      (sendEmailAddressVerificationEmail env s email true).writes = [] ∧
      (sendEmailAddressVerificationEmail env s email true).mails = []) ∧
    (isExpired env.now u.verify_email_sent_at env.verifyEmailTokenMinutes = true →
      (sendEmailAddressVerificationEmail env s email true).result = Except.ok true ∧
      findByEmail (sendEmailAddressVerificationEmail env s email true).store email
        = some (applyPatch u (verifyEmailIssuePatch env.now env.generatePinToken))) ∧
    ((sendEmailAddressVerificationEmail env s email false).result = Except.ok true ∧
      findByEmail (sendEmailAddressVerificationEmail env s email false).store email
        = some (applyPatch u (verifyEmailIssuePatch env.now env.generatePinToken))) ∧
    (applyPatch u (verifyEmailIssuePatch env.now env.generatePinToken)).verify_email_token
      = some env.generatePinToken ∧
    (applyPatch u (verifyEmailIssuePatch env.now env.generatePinToken)).verify_email_sent_at
      = some env.now := by
  refine ⟨fun hnexp => ?_, fun hyexp => ?_, ?_, rfl, rfl⟩
  · unfold sendEmailAddressVerificationEmail
    rw [hfind]
    dsimp only
    rw [hunv, if_neg Bool.false_ne_true, hnexp]
    rw [show (true && !false) = true from rfl, if_pos rfl]
    exact ⟨rfl, rfl, rfl, rfl⟩
  · unfold sendEmailAddressVerificationEmail
    rw [hfind]
    dsimp only
    rw [hunv, if_neg Bool.false_ne_true, hyexp]
    rw [show (true && !true) = false from rfl, if_neg Bool.false_ne_true]
    exact ⟨rfl, findByEmail_storeUpdate s email u _ hfind⟩
  · unfold sendEmailAddressVerificationEmail
    rw [hfind]
    dsimp only
    rw [hunv, if_neg Bool.false_ne_true]
    rw [show ∀ b : Bool, (false && b) = false from fun b => rfl,
      if_neg Bool.false_ne_true]
    exact ⟨rfl, findByEmail_storeUpdate s email u _ hfind⟩

/-- Witness for C5: at minute 100 the token issued at minute 95 is pending,
so the guarded re-issue is refused; at minute 200 it is expired and the
guarded re-issue proceeds. -/
theorem C5_verify_email_reissue_witness :
    (sendEmailAddressVerificationEmail testEnv [testUser]
      "jean@exemple.fr" true).result = Except.ok false ∧
    (sendEmailAddressVerificationEmail { testEnv with now := 200 } [testUser]
      "jean@exemple.fr" true).result = Except.ok true :=
  ⟨((C5_verify_email_reissue testEnv [testUser] "jean@exemple.fr" testUser
      (by decide) (by decide)).1 (by decide)).1,
   ((C5_verify_email_reissue { testEnv with now := 200 } [testUser]
      "jean@exemple.fr" testUser (by decide) (by decide)).2.1 (by decide)).1⟩

/-- An environment whose breach corpus reports every password as not
breached. -/
def testEnvNoPwn : Env :=
  { testEnv with hasPasswordBeenPwned := fun _ => false }

/-- C6: `signup` fails with `EmailUnavailableError` when the email is taken,
then `WeakPasswordError` when the password fails the policy, then
`LeakedPasswordError` when it is breached; otherwise it creates exactly one
record whose `encrypted_password` is the hash of the password and whose
`email_verified` is false. -/
theorem C6_signup (env : Env) (s : Store) (email password : String) :
    ((∃ u, findByEmail s email = some u) →
      (signup env s email password).result
        = Except.error Err.EmailUnavailableError) ∧
    (findByEmail s email = none →
      env.isPasswordSecure password email = false →
      (signup env s email password).result
        = Except.error Err.WeakPasswordError) ∧
    (findByEmail s email = none →
      env.isPasswordSecure password email = true →
      env.hasPasswordBeenPwned password = true →
      (signup env s email password).result
        = Except.error Err.LeakedPasswordError) ∧
    (findByEmail s email = none →
      env.isPasswordSecure password email = true →
      env.hasPasswordBeenPwned password = false →
      (signup env s email password).result
        = Except.ok (createUser env.nextId email
            (some (env.hashPassword password)) (some env.now)) ∧
      (signup env s email password).store
        = s ++ [createUser env.nextId email
            (some (env.hashPassword password)) (some env.now)] ∧
      (signup env s email password).writes
        = [WriteEvent.create (createUser env.nextId email
            (some (env.hashPassword password)) (some env.now))] ∧
      (createUser env.nextId email
        (some (env.hashPassword password)) (some env.now)).encrypted_password
        = some (env.hashPassword password) ∧
      (createUser env.nextId email
        (some (env.hashPassword password)) (some env.now)).email_verified
        = false) := by
  refine ⟨fun h => ?_, fun h1 h2 => ?_, fun h1 h2 h3 => ?_, fun h1 h2 h3 => ?_⟩
  · rcases h with ⟨u, hu⟩
    unfold signup
    rw [hu, show (some u).isSome = true from rfl, if_pos rfl]
  · unfold signup
    rw [h1]
    rw [show (none : Option User).isSome = false from rfl,
      if_neg Bool.false_ne_true, h2, Bool.not_false, if_pos rfl]
  · unfold signup
    rw [h1]
    rw [show (none : Option User).isSome = false from rfl,
      if_neg Bool.false_ne_true, h2, Bool.not_true,
      if_neg Bool.false_ne_true, h3, if_pos rfl]
  · unfold signup
    rw [h1]
    rw [show (none : Option User).isSome = false from rfl,
      if_neg Bool.false_ne_true, h2, Bool.not_true,
      if_neg Bool.false_ne_true, h3, if_neg Bool.false_ne_true]
    exact ⟨rfl, rfl, rfl, rfl, rfl⟩

/-- Witness for C6: the spec's scenario — signup of `a@b.com` with
`Password123!` and a corpus that reports "not breached" creates the record;
signing up an already-registered email fails. -/
theorem C6_signup_witness :
    (signup testEnvNoPwn [] "a@b.com" "Password123!").result
      = Except.ok (createUser testEnvNoPwn.nextId "a@b.com"
          (some (testEnvNoPwn.hashPassword "Password123!"))
          (some testEnvNoPwn.now)) ∧
    (signup testEnv [testUser] "jean@exemple.fr" "AnyPassword42!").result
      = Except.error Err.EmailUnavailableError :=
  ⟨((C6_signup testEnvNoPwn [] "a@b.com" "Password123!").2.2.2
      (by decide) (by decide) (by decide)).1,
   (C6_signup testEnv [testUser] "jean@exemple.fr" "AnyPassword42!").1
     ⟨testUser, by decide⟩⟩

/-- C9: a successful password login writes one update supplying only
`sign_in_count` and `last_sign_in_at`; under the store's merge the returned
row keeps every other field — all three token/timestamp pairs,
`email_verified`, `email_verified_at` and `encrypted_password` are
unchanged, so pending tokens survive a password login. -/
theorem C9_login_frame (env : Env) (s : Store) (email password : String)
    (u : User) (hfind : findByEmail s email = some u)
    (hmatch : env.validatePassword password u.encrypted_password = true) :
    (login env s email password).result
      = Except.ok (applyPatch u (loginPatch env.now u.sign_in_count)) ∧
    (login env s email password).writes
      = [WriteEvent.update u.id (loginPatch env.now u.sign_in_count)] ∧
    (loginPatch env.now u.sign_in_count).verify_email_token = none ∧
    (loginPatch env.now u.sign_in_count).magic_link_token = none ∧
    (loginPatch env.now u.sign_in_count).reset_password_token = none ∧
    (applyPatch u (loginPatch env.now u.sign_in_count)).sign_in_count
      = u.sign_in_count + 1 ∧
    (applyPatch u (loginPatch env.now u.sign_in_count)).last_sign_in_at
      = some env.now ∧
    (applyPatch u (loginPatch env.now u.sign_in_count)).verify_email_token
      = u.verify_email_token ∧
    (applyPatch u (loginPatch env.now u.sign_in_count)).verify_email_sent_at
      = u.verify_email_sent_at ∧
    (applyPatch u (loginPatch env.now u.sign_in_count)).magic_link_token
      = u.magic_link_token ∧
    (applyPatch u (loginPatch env.now u.sign_in_count)).magic_link_sent_at
      = u.magic_link_sent_at ∧
    (applyPatch u (loginPatch env.now u.sign_in_count)).reset_password_token
      = u.reset_password_token ∧
    (applyPatch u (loginPatch env.now u.sign_in_count)).reset_password_sent_at
      = u.reset_password_sent_at ∧
    (applyPatch u (loginPatch env.now u.sign_in_count)).email_verified
      = u.email_verified ∧
    (applyPatch u (loginPatch env.now u.sign_in_count)).email_verified_at
      = u.email_verified_at ∧
    (applyPatch u (loginPatch env.now u.sign_in_count)).encrypted_password
      = u.encrypted_password := by
  unfold login
  rw [hfind]
  dsimp only
  rw [hmatch, if_pos rfl]
  exact ⟨rfl, rfl, rfl, rfl, rfl, rfl, rfl, rfl, rfl, rfl, rfl, rfl, rfl,
    rfl, rfl, rfl⟩

/-- Witness for C9: `testUser` logs in with the right password; the pending
verify-email, magic-link and reset-password pairs survive. -/
theorem C9_login_frame_witness :
    (login testEnv [testUser] "jean@exemple.fr" "OldPassword!").result
      = Except.ok (applyPatch testUser (loginPatch testEnv.now
          testUser.sign_in_count)) ∧
    (applyPatch testUser (loginPatch testEnv.now
      testUser.sign_in_count)).magic_link_token = testUser.magic_link_token :=
  ⟨(C9_login_frame testEnv [testUser] "jean@exemple.fr" "OldPassword!"
      testUser (by decide) (by decide)).1,
   (C9_login_frame testEnv [testUser] "jean@exemple.fr" "OldPassword!"
      testUser (by decide) (by decide)).2.2.2.2.2.2.2.2.2.1⟩

/-- C10: `sendSendMagicLinkEmail` on an existing user unconditionally
overwrites the magic-link pair with the fresh token and the current time —
there is no checkBeforeSend guard, even when a previous magic-link token is
still pending and unexpired — and returns true. -/
theorem C10_magic_link_overwrite (env : Env) (s : Store) (email host : String)
    (u : User) (hfind : findByEmail s email = some u) :
    (sendSendMagicLinkEmail env s email host).result = Except.ok true ∧
    (sendSendMagicLinkEmail env s email host).writes
      = [WriteEvent.update u.id (magicLinkIssuePatch env.now env.generateToken)] ∧
    findByEmail (sendSendMagicLinkEmail env s email host).store email
      = some (applyPatch u (magicLinkIssuePatch env.now env.generateToken)) ∧
    (applyPatch u (magicLinkIssuePatch env.now env.generateToken)).magic_link_token
      = some env.generateToken ∧
    (applyPatch u (magicLinkIssuePatch env.now env.generateToken)).magic_link_sent_at
      = some env.now := by
  unfold sendSendMagicLinkEmail
  rw [hfind]
  dsimp only
  exact ⟨rfl, rfl, findByEmail_storeUpdate s email u _ hfind, rfl, rfl⟩

/-- Witness for C10: `testUser` has a pending unexpired magic-link token at
minute 95, yet a new request overwrites the pair with the fresh token at
minute 100. -/
theorem C10_magic_link_overwrite_witness :
    isExpired testEnv.now testUser.magic_link_sent_at
      testEnv.magicLinkTokenMinutes = false ∧
    findByEmail (sendSendMagicLinkEmail testEnv [testUser] "jean@exemple.fr"
      "https://host").store "jean@exemple.fr"
      = some (applyPatch testUser
          (magicLinkIssuePatch testEnv.now testEnv.generateToken)) :=
  ⟨by decide,
   (C10_magic_link_overwrite testEnv [testUser] "jean@exemple.fr"
     "https://host" testUser (by decide)).2.2.1⟩

/-! ### Write-frame analysis (spec section 2 data-flow) -/

/-- All store writes of one call target a single record: no write, one
create, one update, or a create followed by an update of the created row. -/
def singleRecordWrites : List WriteEvent → Bool
  | [] => true
  | [WriteEvent.create _] => true
  | [WriteEvent.update _ _] => true
  | [WriteEvent.create u, WriteEvent.update i _] => u.id == i
  | _ => false

/-- The frame contract of one call: its writes target a single record and
it emits at most one notification. -/
def frameOk {α : Type} (r : OpResult α) : Bool :=
  singleRecordWrites r.writes && decide (r.mails.length ≤ 1)

/-- `startLogin` performs no store write. -/
theorem startLogin_frame (env : Env) (s : Store) (email : String) :
    frameOk (startLogin env s email) = true ∧
    (startLogin env s email).writes.length = 0 := by
  unfold startLogin
  by_cases h1 : (findByEmail s email).isSome = true
  · rw [if_pos h1]; exact ⟨rfl, rfl⟩
  · rw [if_neg h1]
    by_cases h2 : (env.isEmailSafeToSend email).1 = true
    · rw [if_pos h2]; exact ⟨rfl, rfl⟩
    · rw [if_neg h2]; exact ⟨rfl, rfl⟩

/-- `login` writes at most one update. -/
theorem login_frame (env : Env) (s : Store) (email password : String) :
    frameOk (login env s email password) = true ∧
    (login env s email password).writes.length ≤ 1 := by
  unfold login
  cases hfind : findByEmail s email with
  | none => exact ⟨rfl, by simp⟩
  | some u =>
    dsimp only
    by_cases hv : env.validatePassword password u.encrypted_password = true
    · rw [if_pos hv]; exact ⟨rfl, by simp⟩
    · rw [if_neg hv]; exact ⟨rfl, by simp⟩

/-- `signup` writes at most one create. -/
theorem signup_frame (env : Env) (s : Store) (email password : String) :
    frameOk (signup env s email password) = true ∧
    (signup env s email password).writes.length ≤ 1 := by
  unfold signup
  by_cases h1 : (findByEmail s email).isSome = true
  · rw [if_pos h1]; exact ⟨rfl, by simp⟩
  · rw [if_neg h1]
    by_cases h2 : (!env.isPasswordSecure password email) = true
    · rw [if_pos h2]; exact ⟨rfl, by simp⟩
    · rw [if_neg h2]
      by_cases h3 : env.hasPasswordBeenPwned password = true
      · rw [if_pos h3]; exact ⟨rfl, by simp⟩
      · rw [if_neg h3]; exact ⟨rfl, by simp⟩

/-- `sendEmailAddressVerificationEmail` writes at most one update and sends
at most one mail. -/
theorem sendEmailAddressVerificationEmail_frame (env : Env) (s : Store)
    (email : String) (checkBeforeSend : Bool) :
    frameOk (sendEmailAddressVerificationEmail env s email checkBeforeSend) = true ∧
    (sendEmailAddressVerificationEmail env s email checkBeforeSend).writes.length ≤ 1 := by
  unfold sendEmailAddressVerificationEmail
  cases hfind : findByEmail s email with
  | none => exact ⟨rfl, by simp⟩
  | some u =>
    dsimp only
    by_cases h1 : u.email_verified = true
    · rw [if_pos h1]; exact ⟨rfl, by simp⟩
    · rw [if_neg h1]
      by_cases h2 : (checkBeforeSend && !isExpired env.now u.verify_email_sent_at
          env.verifyEmailTokenMinutes) = true
      · rw [if_pos h2]; exact ⟨rfl, by simp⟩
      · rw [if_neg h2]; exact ⟨rfl, by simp⟩

/-- `verifyEmail` writes at most one update. -/
theorem verifyEmail_frame (env : Env) (s : Store) (email token : String) :
    frameOk (verifyEmail env s email token) = true ∧
    (verifyEmail env s email token).writes.length ≤ 1 := by
  unfold verifyEmail
  cases hfind : findByEmail s email with
  | none => exact ⟨rfl, by simp⟩
  | some u =>
    dsimp only
    by_cases h1 : u.verify_email_token ≠ some token
    · rw [if_pos h1]; exact ⟨rfl, by simp⟩
    · rw [if_neg h1]
      by_cases h2 : isExpired env.now u.verify_email_sent_at
          env.verifyEmailTokenMinutes = true
      · rw [if_pos h2]; exact ⟨rfl, by simp⟩
      · rw [if_neg h2]; exact ⟨rfl, by simp⟩

/-- `updateEmailAddressVerificationStatus` writes at most one update. -/
theorem updateEmailAddressVerificationStatus_frame (env : Env) (s : Store)
    (email : String) :
    frameOk (updateEmailAddressVerificationStatus env s email) = true ∧
    (updateEmailAddressVerificationStatus env s email).writes.length ≤ 1 := by
  unfold updateEmailAddressVerificationStatus
  cases hfind : findByEmail s email with
  | none => exact ⟨rfl, by simp⟩
  | some u =>
    dsimp only
    by_cases h1 : (u.email_verified && isExpired env.now u.email_verified_at
        env.maxDurationBetweenVerificationsMinutes) = true
    · rw [if_pos h1]; exact ⟨rfl, by simp⟩
    · rw [if_neg h1]; exact ⟨rfl, by simp⟩

/-- `sendSendMagicLinkEmail` writes one update to the read or created row —
two writes, create then update of the same record, exactly when the user
did not exist — and sends one mail. -/
theorem sendSendMagicLinkEmail_frame (env : Env) (s : Store)
    (email host : String) :
    frameOk (sendSendMagicLinkEmail env s email host) = true ∧
    (sendSendMagicLinkEmail env s email host).writes.length ≤ 2 ∧
    ((sendSendMagicLinkEmail env s email host).writes.length = 2 ↔
      findByEmail s email = none) := by
  unfold sendSendMagicLinkEmail
  cases hfind : findByEmail s email with
  | none =>
    dsimp only
    refine ⟨?_, by simp, by simp⟩
    simp [frameOk, singleRecordWrites]
  | some u =>
    dsimp only
    exact ⟨rfl, by simp, by simp⟩

/-- `loginWithMagicLink` writes at most one update. -/
theorem loginWithMagicLink_frame (env : Env) (s : Store) (token : String) :
    frameOk (loginWithMagicLink env s token) = true ∧
    (loginWithMagicLink env s token).writes.length ≤ 1 := by
  unfold loginWithMagicLink
  by_cases h0 : token = ""
  · rw [if_pos h0]; exact ⟨rfl, by simp⟩
  · rw [if_neg h0]
    cases hfind : findByMagicLinkToken s token with
    | none => exact ⟨rfl, by simp⟩
    | some u =>
      dsimp only
      by_cases h1 : isExpired env.now u.magic_link_sent_at
          env.magicLinkTokenMinutes = true
      · rw [if_pos h1]; exact ⟨rfl, by simp⟩
      · rw [if_neg h1]; exact ⟨rfl, by simp⟩

/-- `sendResetPasswordEmail` writes at most one update and sends at most
one mail. -/
theorem sendResetPasswordEmail_frame (env : Env) (s : Store)
    (email host : String) :
    frameOk (sendResetPasswordEmail env s email host) = true ∧
    (sendResetPasswordEmail env s email host).writes.length ≤ 1 := by
  unfold sendResetPasswordEmail
  cases hfind : findByEmail s email with
  | none => exact ⟨rfl, by simp⟩
  | some u => exact ⟨rfl, by simp⟩

/-- `changePassword` writes at most one update. -/
theorem changePassword_frame (env : Env) (s : Store) (token password : String) :
    frameOk (changePassword env s token password) = true ∧
    (changePassword env s token password).writes.length ≤ 1 := by
  unfold changePassword
  by_cases h0 : token = ""
  · rw [if_pos h0]; exact ⟨rfl, by simp⟩
  · rw [if_neg h0]
    cases hfind : findByResetPasswordToken s token with
    | none => exact ⟨rfl, by simp⟩
    | some u =>
      dsimp only
      by_cases h1 : isExpired env.now u.reset_password_sent_at
          env.resetPasswordTokenMinutes = true
      · rw [if_pos h1]; exact ⟨rfl, by simp⟩
      · rw [if_neg h1]
        by_cases h2 : (!env.isPasswordSecure password u.email) = true
        · rw [if_pos h2]; exact ⟨rfl, by simp⟩
        · rw [if_neg h2]
          by_cases h3 : env.hasPasswordBeenPwned password = true
          · rw [if_pos h3]; exact ⟨rfl, by simp⟩
          · rw [if_neg h3]; exact ⟨rfl, by simp⟩

/-- `updatePersonalInformations` writes exactly one update. -/
theorem updatePersonalInformations_frame (env : Env) (s : Store)
    (userId : Nat) (g f ph j : Option String) :
    frameOk (updatePersonalInformations env s userId g f ph j) = true ∧
    (updatePersonalInformations env s userId g f ph j).writes.length = 1 := by
  exact ⟨rfl, rfl⟩

/-- C8 counterexample: not every call performs exactly one store write —
`sendSendMagicLinkEmail` on a nonexistent email performs two writes (a
create followed by an update), and `startLogin` performs none. -/
theorem C8_counterexample :
    (sendSendMagicLinkEmail testEnv [] "new@b.com" "https://host").writes.length = 2 ∧
    ¬ (sendSendMagicLinkEmail testEnv [] "new@b.com" "https://host").writes.length = 1 ∧
    (startLogin testEnv [] "new@b.com").writes.length = 0 ∧
    ¬ (startLogin testEnv [] "new@b.com").writes.length = 1 := by
  exact ⟨rfl, by decide, rfl, by decide⟩

/-- C8 (amended): every operation's store writes all target a single
record and each call emits at most one notification; each call performs at
most one store write (create or update) — `startLogin` performs none and
`updatePersonalInformations` exactly one — except `sendSendMagicLinkEmail`,
which performs exactly two writes, a create followed by an update of the
created record, precisely when no user exists for the email. -/
theorem C8_single_record_frame (env : Env) (s : Store)
    (email token host password : String) (checkBeforeSend : Bool)
    (userId : Nat) (g f ph j : Option String) :
    (frameOk (startLogin env s email) = true ∧
      (startLogin env s email).writes.length = 0) ∧
    (frameOk (login env s email password) = true ∧
      (login env s email password).writes.length ≤ 1) ∧
    (frameOk (signup env s email password) = true ∧
      (signup env s email password).writes.length ≤ 1) ∧
    (frameOk (sendEmailAddressVerificationEmail env s email checkBeforeSend) = true ∧
      (sendEmailAddressVerificationEmail env s email checkBeforeSend).writes.length ≤ 1) ∧
    (frameOk (verifyEmail env s email token) = true ∧
      (verifyEmail env s email token).writes.length ≤ 1) ∧
    (frameOk (updateEmailAddressVerificationStatus env s email) = true ∧
      (updateEmailAddressVerificationStatus env s email).writes.length ≤ 1) ∧
    (frameOk (sendSendMagicLinkEmail env s email host) = true ∧
      (sendSendMagicLinkEmail env s email host).writes.length ≤ 2 ∧
      ((sendSendMagicLinkEmail env s email host).writes.length = 2 ↔
        findByEmail s email = none)) ∧
    (frameOk (loginWithMagicLink env s token) = true ∧
      (loginWithMagicLink env s token).writes.length ≤ 1) ∧
    (frameOk (sendResetPasswordEmail env s email host) = true ∧
      (sendResetPasswordEmail env s email host).writes.length ≤ 1) ∧
    (frameOk (changePassword env s token password) = true ∧
      (changePassword env s token password).writes.length ≤ 1) ∧
    (frameOk (updatePersonalInformations env s userId g f ph j) = true ∧
      (updatePersonalInformations env s userId g f ph j).writes.length = 1) :=
  ⟨startLogin_frame env s email,
   login_frame env s email password,
   signup_frame env s email password,
   sendEmailAddressVerificationEmail_frame env s email checkBeforeSend,
   verifyEmail_frame env s email token,
   updateEmailAddressVerificationStatus_frame env s email,
   sendSendMagicLinkEmail_frame env s email host,
   loginWithMagicLink_frame env s token,
   sendResetPasswordEmail_frame env s email host,
   changePassword_frame env s token password,
   updatePersonalInformations_frame env s userId g f ph j⟩
